import Mathlib

/-
Verification of the Lava runtime control plane.

Shallow embedding of:
  src/lava/magma/runtime/mgmt_token_enums.py   (tokens, enum_to_np)
  src/lava/magma/runtime/runtime.py            (class Runtime)
  src/lava/magma/core/model/py/model.py        (AbstractPyProcessModel, PyLoihiProcessModel)
  src/lava/magma/core/process/variable.py      (class Var: alias delegation)
  src/lava/magma/core/process/ports/ports.py   (AbstractPort connection bookkeeping)

Modelling conventions:
  * A one-element numpy array token is a `Token`: its dtype together with its value.
    All scalar payload values relevant to the claims are integral, so values are
    modelled as `Int`; the float64/int32 distinction lives in the dtype tag.
    (Floating-point rounding itself is outside the scope of the claims.)
  * numpy dtype conversion of an integral value wraps modulo the dtype width
    (`wrap32`/`wrap64`); converting to float64 keeps the value.
  * Channel `recv` is modelled by consuming from an explicit list of pending
    tokens supplied as an argument; a `recv` on an exhausted list is the
    `blocked` outcome (the Python call would block forever).
  * Python exceptions are explicit: a runtime operation returns its resulting
    state together with `Option RtErr` (the state at the moment of the raise),
    so partially performed mutations are preserved, exactly as in Python.
  * `MessageInfrastructureInterface.stop` is not under src/.  Modelled from the
    spec: teardown of a built messaging infrastructure is idempotent and does
    not raise (spec section 4.4, channel lifecycle is idempotent).  Calling
    `.stop()` on the field while it is still `None` (runtime constructed but
    never initialized) is an AttributeError, which is visible in runtime.py
    itself (`self._messaging_infrastructure` is `None` until initialize()).
-/

deriving instance DecidableEq for Except

namespace Lava

/-! ### Scalar tokens (mgmt_token_enums.py) -/

/-- numpy dtypes used on the runtime's channels. -/
inductive NpDType
  | int32
  | int64
  | float64
deriving DecidableEq

/-- Wrap an integer into the int32 value range, as numpy dtype conversion does. -/
def wrap32 (v : Int) : Int := (v + 2 ^ 31) % 2 ^ 32 - 2 ^ 31

/-- Wrap an integer into the int64 value range, as numpy dtype conversion does. -/
def wrap64 (v : Int) : Int := (v + 2 ^ 63) % 2 ^ 64 - 2 ^ 63

/-- Value conversion performed when an integral value is stored with dtype `d`. -/
def NpDType.castScalar : NpDType → Int → Int
  | .int32, v => wrap32 v
  | .int64, v => wrap64 v
  | .float64, v => v

/-- A single message on a channel: a one-element numpy array (dtype + value). -/
structure Token where
  dtype : NpDType
  val : Int
deriving DecidableEq

/-- Embeds `enum_to_np(value, d_type)`: build the one-element array with dtype `d`. -/
def enum_to_np (v : Int) (d : NpDType) : Token := Token.mk d (d.castScalar v)

/-- Token `MGMT_COMMAND.STOP = enum_to_np(-1)`. -/
def MGMT_COMMAND.STOP : Token := enum_to_np (-1) NpDType.int32

/-- Token `MGMT_COMMAND.PAUSE = enum_to_np(-2)`. -/
def MGMT_COMMAND.PAUSE : Token := enum_to_np (-2) NpDType.int32

/-- Value of `MGMT_RESPONSE.DONE` (`np.array_equal` compares values). -/
def MGMT_RESPONSE.DONE : Int := 0

/-- Value of `MGMT_RESPONSE.TERMINATED`. -/
def MGMT_RESPONSE.TERMINATED : Int := -1

/-- Value of `MGMT_RESPONSE.PAUSED`. -/
def MGMT_RESPONSE.PAUSED : Int := -2

/-- Token `REQ_TYPE.GET = enum_to_np(0)`. -/
def REQ_TYPE.GET : Token := enum_to_np 0 NpDType.int32

/-- Token `REQ_TYPE.SET = enum_to_np(1)`. -/
def REQ_TYPE.SET : Token := enum_to_np 1 NpDType.int32

/-! ### Runtime (runtime.py) -/

/-- Kinds of Python exception the runtime code can raise; `blocked` stands for
a `recv` that would block forever because no message is pending. -/
inductive RtErr
  | assertionError
  | runtimeError
  | attributeError
  | valueError
  | keyError
  | indexError
  | blocked
deriving DecidableEq

/-- One entry of `node_config.exec_vars`: owning service, owning process, and
the element count of the Var's shape. -/
structure ExecVar where
  runtime_srv_id : Nat
  process_id : Int
  shape_numel : Nat
deriving DecidableEq

/-- The observable state of a `Runtime` object: its counters and flags, whether
the messaging infrastructure has been built, how many Services it talks to
(one cmd/ack/req/data channel each), and the executable's exec_vars table. -/
structure RState where
  current_ts : Int
  num_steps : Option Int
  _is_initialized : Bool
  _is_started : Bool
  _is_running : Bool
  _messaging_infrastructure : Bool
  num_services : Nat
  exec_vars : List (Nat × ExecVar)
deriving DecidableEq

/-- Embeds `Runtime.__init__`: counters at zero, all flags False, no messaging
infrastructure, no channels yet. -/
def Runtime.new (ev : List (Nat × ExecVar)) : RState :=
  RState.mk 0 none false false false false 0 ev

/-- Result of a runtime operation: the state when the call returns or raises,
the exception if one was raised, and the tokens sent on the control channels
(in order). -/
structure RtOut where
  state : RState
  err : Option RtErr
  cmdSent : List Token
deriving DecidableEq

/-- The `data != expected` test folded over the ack recv loop: true iff some
acknowledgement differs from the expected response value. -/
def hasBadAck (expected : Int) (acks : List Int) : Bool :=
  acks.any (fun a => !(a == expected))

/-- Embeds `Runtime.initialize`: validate the node config, build infrastructure,
channels, actors, services, and start the ports; `_is_initialized` becomes
True only if nothing raised.  The config checks and builder calls are
abstracted into `cfgOk`; building the sync channels yields `numSrv` channel
sets, one per Service. -/
def Runtime.initRuntime (s : RState) (numSrv : Nat) (cfgOk : Bool) :
    RState × Option RtErr :=
  if cfgOk then
    (RState.mk s.current_ts s.num_steps true s._is_started s._is_running
      true numSrv s.exec_vars, none)
  else (s, some RtErr.assertionError)

/-- The two run conditions consumed by `Runtime._run`. -/
inductive RunCond
  | runSteps (num_steps : Int) (blocking : Bool)
  | runContinuous
deriving DecidableEq

/-- Embeds `Runtime._run`: when started, set `_is_running`; for `RunSteps` record
`num_steps`, send it (as an int32 token) on every control channel, and when
blocking receive one ack per Service, raising `RuntimeError` on the first ack
that is not DONE; on success advance `current_ts` and clear `_is_running`.
`acks` is the sequence of responses the Services will deliver. -/
def Runtime._run (s : RState) (rc : RunCond) (acks : List Int) : RtOut :=
  if s._is_started then
    let s1 := { s with _is_running := true }
    match rc with
    | RunCond.runSteps n blocking =>
      let s2 := { s1 with num_steps := some n }
      let sent := List.replicate s.num_services (enum_to_np n NpDType.int32)
      if blocking then
        if hasBadAck MGMT_RESPONSE.DONE acks then
          RtOut.mk s2 (some RtErr.runtimeError) sent
        else
          RtOut.mk { s2 with current_ts := s2.current_ts + n, _is_running := false }
            none sent
      else RtOut.mk s2 none sent
    | RunCond.runContinuous => RtOut.mk s1 none []
  else RtOut.mk s none []

/-- Embeds `Runtime.start`: legal only once initialized; sets `_is_started` and
delegates to `_run`; otherwise only prints. -/
def Runtime.start (s : RState) (rc : RunCond) (acks : List Int) : RtOut :=
  if s._is_initialized then Runtime._run { s with _is_started := true } rc acks
  else RtOut.mk s none []

/-- Embeds `Runtime.wait`: when running, receive one ack per Service (RuntimeError on
a non-DONE ack), then advance `current_ts` by `num_steps` and clear
`_is_running`; accessing `num_steps` before any step run is an
AttributeError. -/
def Runtime.wait (s : RState) (acks : List Int) : RState × Option RtErr :=
  if s._is_running then
    if hasBadAck MGMT_RESPONSE.DONE acks then (s, some RtErr.runtimeError)
    else
      match s.num_steps with
      | some n => ({ s with current_ts := s.current_ts + n, _is_running := false }, none)
      | none => (s, some RtErr.attributeError)
  else (s, none)

/-- Embeds `Runtime.pause`: when running, send PAUSE on every control channel, then
receive one ack per Service, raising `RuntimeError` on the first response that
is not PAUSED; on success clear `_is_running`. -/
def Runtime.pause (s : RState) (acks : List Int) : RtOut :=
  if s._is_running then
    let sent := List.replicate s.num_services MGMT_COMMAND.PAUSE
    if hasBadAck MGMT_RESPONSE.PAUSED acks then
      RtOut.mk s (some RtErr.runtimeError) sent
    else RtOut.mk { s with _is_running := false } none sent
  else RtOut.mk s none []

/-- Embeds `Runtime.stop`: inside `try`, when started send STOP everywhere, await one
TERMINATED per Service (RuntimeError otherwise), join the ports and clear
`_is_running`/`_is_started`; when not started only print.  The `finally`
block always calls `self._messaging_infrastructure.stop()`: an AttributeError
when the field is still None (runtime never initialized), and modelled from
the spec as an idempotent no-op once the infrastructure was built. -/
def Runtime.stop (s : RState) (acks : List Int) : RtOut :=
  let body : RtOut :=
    if s._is_started then
      let sent := List.replicate s.num_services MGMT_COMMAND.STOP
      if hasBadAck MGMT_RESPONSE.TERMINATED acks then
        RtOut.mk s (some RtErr.runtimeError) sent
      else RtOut.mk { s with _is_running := false, _is_started := false } none sent
    else RtOut.mk s none []
  if body.state._messaging_infrastructure then body
  else RtOut.mk body.state (some RtErr.attributeError) body.cmdSent

/-- Embeds `Runtime.set_var` (idx omitted, i.e. `idx=None`): assert started and not
running, resolve the exec var, then send `[SET, process_id, var_id]` on the
request channel of the owning Service and `[num_items, items...]` (items as
float64) on its data channel.  Returns the two send sequences. -/
def Runtime.set_var (s : RState) (var_id : Nat) (value : List Int) :
    Except RtErr (List Token × List Token) :=
  if !s._is_started then Except.error RtErr.assertionError
  else if s._is_running then Except.error RtErr.assertionError
  else
    match List.lookup var_id s.exec_vars with
    | none => Except.error RtErr.keyError
    | some ev =>
      if ev.runtime_srv_id < s.num_services then
        Except.ok
          ([REQ_TYPE.SET, enum_to_np ev.process_id NpDType.int32,
            enum_to_np ((var_id : Int)) NpDType.int32],
           enum_to_np ((value.length : Int)) NpDType.int32 ::
             value.map (fun v => enum_to_np v NpDType.float64))
      else Except.error RtErr.indexError

/-- Embeds `Runtime.get_var` (idx omitted): assert started and not running, resolve
the exec var, send `[GET, process_id, var_id]`, then read `num_items` followed
by that many data tokens from the Service's data channel (`resp`), and reshape
to the Var's shape (a ValueError when the item count does not match). -/
def Runtime.get_var (s : RState) (var_id : Nat) (resp : List Token) :
    Except RtErr (List Int) :=
  if !s._is_started then Except.error RtErr.assertionError
  else if s._is_running then Except.error RtErr.assertionError
  else
    match List.lookup var_id s.exec_vars with
    | none => Except.error RtErr.keyError
    | some ev =>
      if ev.runtime_srv_id < s.num_services then
        match resp with
        | [] => Except.error RtErr.blocked
        | hdr :: rest =>
          let n := hdr.val.toNat
          if rest.length < n then Except.error RtErr.blocked
          else if n = ev.shape_numel then Except.ok ((rest.take n).map Token.val)
          else Except.error RtErr.valueError
      else Except.error RtErr.indexError

/-- True exactly when the operation failed on one of the two state
preconditions (`assert self._is_started` / `assert not self._is_running`). -/
def assertFailed {α : Type} : Except RtErr α → Bool
  | Except.error RtErr.assertionError => true
  | _ => false

/-- One public call on the Runtime, with the ack/config inputs it consumes. -/
inductive ROp
  | initOp (numSrv : Nat) (cfgOk : Bool)
  | startOp (rc : RunCond) (acks : List Int)
  | runOp (rc : RunCond) (acks : List Int)
  | waitOp (acks : List Int)
  | pauseOp (acks : List Int)
  | stopOp (acks : List Int)

/-- The state reached after one call, whether it returned or raised. -/
def RState.stepOp (s : RState) : ROp → RState
  | ROp.initOp k ok => (Runtime.initRuntime s k ok).1
  | ROp.startOp rc acks => (Runtime.start s rc acks).state
  | ROp.runOp rc acks => (Runtime._run s rc acks).state
  | ROp.waitOp acks => (Runtime.wait s acks).1
  | ROp.pauseOp acks => (Runtime.pause s acks).state
  | ROp.stopOp acks => (Runtime.stop s acks).state

/-- The flag implications of claim C10. -/
def RInv (s : RState) : Prop :=
  (s._is_running = true → s._is_started = true) ∧
    (s._is_started = true → s._is_initialized = true)

/-! ### Python process model (model.py) -/

/-- Exceptions raised inside a process model handler. -/
inductive PmErr
  | keyError
  | unsupportedType
  | blocked
deriving DecidableEq

/-- A Python object stored in a model attribute backing a Var: a Python `int`,
a Python `float` (integral value, see the conventions above), a numpy integer
scalar, or a numpy ndarray whose flattened row-major contents are `data`. -/
inductive PyObj
  | pyInt (v : Int)
  | pyFloat (v : Int)
  | npInt (d : NpDType) (v : Int)
  | npArr (d : NpDType) (data : List Int)
deriving DecidableEq

/-- Result of `buffer.item()` on a one-element array: a Python float for a float64
token, a Python int for an integer token. -/
def pyScalarOfToken (t : Token) : PyObj :=
  match t.dtype with
  | NpDType.float64 => PyObj.pyFloat t.val
  | NpDType.int32 => PyObj.pyInt t.val
  | NpDType.int64 => PyObj.pyInt t.val

/-- Embeds `AbstractPyProcessModel._handle_get_var`: for a Python int or numpy
integer scalar send `enum_to_np(1)` then `enum_to_np(var)`; for an ndarray
send the element count then each element in row-major order as float64.  Any
other attribute type falls through both isinstance checks and sends nothing. -/
def _handle_get_var (var : PyObj) : List Token :=
  match var with
  | PyObj.pyInt v => [enum_to_np 1 NpDType.int32, enum_to_np v NpDType.int32]
  | PyObj.npInt _ v => [enum_to_np 1 NpDType.int32, enum_to_np v NpDType.int32]
  | PyObj.npArr _ data =>
    enum_to_np ((data.length : Int)) NpDType.int32 ::
      data.map (fun v => enum_to_np v NpDType.float64)
  | PyObj.pyFloat _ => []

/-- The elementwise write loop of `_handle_set_var` for ndarrays: iterate the
array cells, stop when the received item counter reaches zero, and assign each
received value into the cell (numpy casts it to the storage dtype). -/
def writeLoop (c : Int → Int) : List Int → Int → List Token → Except PmErr (List Int)
  | [], _, _ => Except.ok []
  | dd :: ds, cnt, chan =>
    if cnt = 0 then Except.ok (dd :: ds)
    else
      match chan with
      | [] => Except.error PmErr.blocked
      | t :: rest => Except.map (fun r => c t.val :: r) (writeLoop c ds (cnt - 1) rest)

/-- Embeds `AbstractPyProcessModel._handle_set_var`: `chan` is the pending content of
`service_to_process_data`.  For a Python int: discard the item-count header,
then store `buffer.item()` (which is a Python float when the wire token is
float64).  For a numpy integer scalar: store `buffer.astype(var.dtype)`.  For
an ndarray: read the item counter and run the elementwise write loop.  Any
other stored type raises `RuntimeError("Unsupported type")`. -/
def _handle_set_var (var : PyObj) (chan : List Token) : Except PmErr PyObj :=
  match var with
  | PyObj.pyInt _ =>
    match chan with
    | _ :: b :: _ => Except.ok (pyScalarOfToken b)
    | _ => Except.error PmErr.blocked
  | PyObj.npInt d _ =>
    match chan with
    | _ :: b :: _ => Except.ok (PyObj.npInt d (d.castScalar b.val))
    | _ => Except.error PmErr.blocked
  | PyObj.npArr d data =>
    match chan with
    | [] => Except.error PmErr.blocked
    | h :: rest => Except.map (PyObj.npArr d) (writeLoop d.castScalar data h.val rest)
  | PyObj.pyFloat _ => Except.error PmErr.unsupportedType

/-- One request pending on `service_to_process_req`, with the data tokens that
accompany a SET on `service_to_process_data`. -/
inductive VarReq
  | getReq (var_id : Nat)
  | setReq (var_id : Nat) (chan : List Token)
deriving DecidableEq

/-- Embeds `setattr` on the attribute map backing `var_id_to_var_map`. -/
def updateVarMap (k : Nat) (v : PyObj) : List (Nat × PyObj) → List (Nat × PyObj)
  | [] => []
  | (k', v') :: rest =>
    if k' = k then (k', v) :: rest else (k', v') :: updateVarMap k v rest

/-- Embeds `AbstractPyProcessModel._handle_get_set_var`: drain the pending GET/SET
requests in order, dispatching to the two handlers; returns the updated
attributes and the tokens sent on `process_to_service_data`.  An unknown var
id is a KeyError. -/
def _handle_get_set_var (vars : List (Nat × PyObj)) :
    List VarReq → Except PmErr (List (Nat × PyObj) × List Token)
  | [] => Except.ok (vars, [])
  | VarReq.getReq vid :: rest =>
    match List.lookup vid vars with
    | none => Except.error PmErr.keyError
    | some v =>
      Except.map (fun r => (r.1, _handle_get_var v ++ r.2))
        (_handle_get_set_var vars rest)
  | VarReq.setReq vid chan :: rest =>
    match List.lookup vid vars with
    | none => Except.error PmErr.keyError
    | some v =>
      match _handle_set_var v chan with
      | Except.error e => Except.error e
      | Except.ok v' => _handle_get_set_var (updateVarMap vid v' vars) rest

/-- Actor-visible state of a process model: its time step counter and the
attributes backing its Vars. -/
structure ActorSt where
  current_ts : Int
  vars : List (Nat × PyObj)
deriving DecidableEq

/-- The user-supplied phase callbacks and guards of a PyLoihiProcessModel. -/
structure LoihiCbs where
  run_spk : ActorSt → ActorSt
  run_pre_mgmt : ActorSt → ActorSt
  run_lrn : ActorSt → ActorSt
  run_post_mgmt : ActorSt → ActorSt
  pre_guard : ActorSt → Bool
  lrn_guard : ActorSt → Bool
  post_guard : ActorSt → Bool

/-- The default callbacks: every `run_*` is `pass`, every guard returns None
(falsy). -/
def trivialCbs : LoihiCbs :=
  LoihiCbs.mk id id id id (fun _ => false) (fun _ => false) (fun _ => false)

/-- Outcome of dispatching one accepted command token: the new actor state,
the responses sent on `process_to_service_ack`, the tokens sent on
`process_to_service_data`, and the exception if a handler raised after its
sends. -/
structure DispRes where
  st : ActorSt
  acks : List Int
  dataOut : List Token
  err : Option PmErr
deriving DecidableEq

/-- One iteration of `AbstractPyProcessModel._run` on a received command
token: the base class accepts only STOP (-1) and PAUSE (-2); its `_stop`
sends TERMINATED and joins, its `_pause` sends PAUSED and then services
GET/SET requests.  Any other token is rejected (`ValueError`), returned as
`none`. -/
def basePMDispatch (st : ActorSt) (cmd : Int) (reqs : List VarReq) : Option DispRes :=
  if cmd = -1 then some (DispRes.mk st [MGMT_RESPONSE.TERMINATED] [] none)
  else if cmd = -2 then
    match _handle_get_set_var st.vars reqs with
    | Except.ok r => some (DispRes.mk (ActorSt.mk st.current_ts r.1) [MGMT_RESPONSE.PAUSED] r.2 none)
    | Except.error e => some (DispRes.mk st [MGMT_RESPONSE.PAUSED] [] (some e))
  else none

/-- One iteration of the dispatch loop for a PyLoihiProcessModel, which
registers handlers for STOP (-1), PAUSE (-2) and the five phases SPK=1,
PRE_MGMT=2, LRN=3, POST_MGMT=4, HOST=5.  `PyLoihiProcessModel._pause`
overrides the base handler and only services GET/SET requests, sending no
acknowledgement ("FixMe: Temporary hack because of protocol difference").
The VarPort service loop after PRE_MGMT/POST_MGMT touches only reference-port
channels, never the ack channel, and is not modelled further. -/
def loihiDispatch (cb : LoihiCbs) (st : ActorSt) (cmd : Int) (reqs : List VarReq) :
    Option DispRes :=
  if cmd = -1 then some (DispRes.mk st [MGMT_RESPONSE.TERMINATED] [] none)
  else if cmd = -2 ∨ cmd = 5 then
    match _handle_get_set_var st.vars reqs with
    | Except.ok r => some (DispRes.mk (ActorSt.mk st.current_ts r.1) [] r.2 none)
    | Except.error e => some (DispRes.mk st [] [] (some e))
  else if cmd = 1 then
    some (DispRes.mk (cb.run_spk { st with current_ts := st.current_ts + 1 })
      [MGMT_RESPONSE.DONE] [] none)
  else if cmd = 2 then
    some (DispRes.mk (if cb.pre_guard st then cb.run_pre_mgmt st else st)
      [MGMT_RESPONSE.DONE] [] none)
  else if cmd = 3 then
    some (DispRes.mk (if cb.lrn_guard st then cb.run_lrn st else st)
      [MGMT_RESPONSE.DONE] [] none)
  else if cmd = 4 then
    some (DispRes.mk (if cb.post_guard st then cb.run_post_mgmt st else st)
      [MGMT_RESPONSE.DONE] [] none)
  else none

/-- An empty actor state used as a concrete evaluation point. -/
def actorSt0 : ActorSt := ActorSt.mk 0 []

/-! ### Var alias delegation (variable.py) -/

/-- A Var together with its (finite, acyclic) `aliased_var` chain.  `base` is
a Var whose `aliased_var` is None; `aliasOf` carries the Var's own id, whether
its process has a runtime, its `init`, and the Var it aliases. -/
inductive LVar
  | base (id : Nat) (has_runtime : Bool) (init : Int)
  | aliasOf (id : Nat) (has_runtime : Bool) (init : Int) (aliased_var : LVar)
deriving DecidableEq

/-- The end of the `aliased_var` chain. -/
def LVar.terminalVar : LVar → LVar
  | LVar.base i r v => LVar.base i r v
  | LVar.aliasOf _ _ _ t => t.terminalVar

/-- The Var's own id. -/
def LVar.varId : LVar → Nat
  | LVar.base i _ _ => i
  | LVar.aliasOf i _ _ _ => i

/-- True when `aliased_var` is None. -/
def LVar.isBase : LVar → Bool
  | LVar.base _ _ _ => true
  | LVar.aliasOf _ _ _ _ => false

/-- What `Var.get(idx)` evaluates to: the value of `runtime.get_var(id, idx)`
for some Var id, or that Var's `init` when no runtime is attached yet. -/
inductive GetOutcome
  | fromRuntime (var_id : Nat) (idx : Option (List Nat))
  | fromInit (v : Int)
deriving DecidableEq

/-- What `Var.set(value, idx)` does: the single runtime mutation
`runtime.set_var(id, value, idx)` it performs, or the ValueError raised when
no runtime is attached. -/
inductive SetOutcome
  | runtimeSet (var_id : Nat) (value : List Int) (idx : Option (List Nat))
  | noRuntimeErr
deriving DecidableEq

/-- Embeds `Var.get`: delegate to `aliased_var` when set, otherwise read through the
runtime (or fall back to `init`). -/
def LVar.get : LVar → Option (List Nat) → GetOutcome
  | LVar.base i true _, idx => GetOutcome.fromRuntime i idx
  | LVar.base _ false v, _ => GetOutcome.fromInit v
  | LVar.aliasOf _ _ _ t, idx => t.get idx

/-- Embeds `Var.set`: delegate to `aliased_var` when set, otherwise mutate through
the runtime (ValueError without one). -/
def LVar.set : LVar → List Int → Option (List Nat) → SetOutcome
  | LVar.base i true _, x, idx => SetOutcome.runtimeSet i x idx
  | LVar.base _ false _, _, _ => SetOutcome.noRuntimeErr
  | LVar.aliasOf _ _ _ t, x, idx => t.set x idx

/-! ### Port connection bookkeeping (ports.py) -/

/-- The two connection lists of an `AbstractPort`. -/
structure PortSt where
  in_connections : List Nat
  out_connections : List Nat
deriving DecidableEq

/-- A collection of ports addressed by stable ids. -/
def PortGraph : Type := Nat → PortSt

/-- A port with no connections. -/
def emptyPort : PortSt := PortSt.mk [] []

/-- The graph in which every port is fresh. -/
def emptyGraph : PortGraph := fun _ => emptyPort

/-- Replace the state of port `i`. -/
def updatePort (g : PortGraph) (i : Nat) (p : PortSt) : PortGraph :=
  fun j => if j = i then p else g j

/-- Embeds `AbstractPort._add_inputs` on port `i`: if `inputs` is not disjoint from
`in_connections`, raise DuplicateConnectionError (flag `true`) and change
nothing; otherwise append.  Disjointness is on the underlying sets, as with
`set(a).isdisjoint(set(b))`. -/
def _add_inputs (g : PortGraph) (i : Nat) (inputs : List Nat) : PortGraph × Bool :=
  if inputs.any (fun q => (g i).in_connections.contains q) then (g, true)
  else
    (updatePort g i
      (PortSt.mk ((g i).in_connections ++ inputs) (g i).out_connections), false)

/-- Embeds `AbstractPort._add_outputs` on port `i`: dual to `_add_inputs`. -/
def _add_outputs (g : PortGraph) (i : Nat) (outputs : List Nat) : PortGraph × Bool :=
  if outputs.any (fun q => (g i).out_connections.contains q) then (g, true)
  else
    (updatePort g i
      (PortSt.mk (g i).in_connections ((g i).out_connections ++ outputs)), false)

/-- The `for p in ports: p._add_inputs([self])` loop of `_connect_forward`:
stops at the first raise, keeping the mutations already made. -/
def forwardLoop (p : Nat) : PortGraph → List Nat → PortGraph × Bool
  | g, [] => (g, false)
  | g, q :: rest =>
    match _add_inputs g q [p] with
    | (g', true) => (g', true)
    | (g', false) => forwardLoop p g' rest

/-- Embeds `AbstractPort._connect_forward` from port `p` to `ports` (the shape/type
validation concerns only well-formedness of the arguments and mutates
nothing; the claims quantify over calls that pass it): add `ports` to `p`'s
out_connections, then add `p` to each port's in_connections. -/
def _connect_forward (g : PortGraph) (p : Nat) (ports : List Nat) : PortGraph × Bool :=
  match _add_outputs g p ports with
  | (g1, true) => (g1, true)
  | (g1, false) => forwardLoop p g1 ports

/-- The `for p in ports: p._add_outputs([self])` loop of `_connect_backward`. -/
def backwardLoop (q : Nat) : PortGraph → List Nat → PortGraph × Bool
  | g, [] => (g, false)
  | g, p :: rest =>
    match _add_outputs g p [q] with
    | (g', true) => (g', true)
    | (g', false) => backwardLoop q g' rest

/-- Embeds `AbstractPort._connect_backward` from `ports` into port `q`: add `ports`
to `q`'s in_connections, then add `q` to each port's out_connections. -/
def _connect_backward (g : PortGraph) (q : Nat) (ports : List Nat) : PortGraph × Bool :=
  match _add_inputs g q ports with
  | (g1, true) => (g1, true)
  | (g1, false) => backwardLoop q g1 ports

/-- The graph reached by `p.connect([r, r, s])` on fresh ports `p`=0, `r`=1,
`s`=2: the call raises DuplicateConnectionError in the middle of its input
loop, leaving `0.out=[1,1,2]`, `1.in=[0]`, `2.in=[]`. -/
def brokenGraph : PortGraph := (_connect_forward emptyGraph 0 [1, 1, 2]).1

/-- A two-port graph where the edge 0 → 1 is present on both sides, as after
a successful `connect`. -/
def symGraph : PortGraph :=
  updatePort (updatePort emptyGraph 0 (PortSt.mk [] [1])) 1 (PortSt.mk [0] [])

/-! ### Concrete evaluation points -/

/-- Calls `stop()` with every Service acknowledging TERMINATED, as the protocol
prescribes. -/
def stopWithCompliantAcks (s : RState) : RtOut :=
  Runtime.stop s (List.replicate s.num_services MGMT_RESPONSE.TERMINATED)

/-- A runtime that has been initialized (one Service) but not started. -/
def rInit1 : RState := (Runtime.initRuntime (Runtime.new []) 1 true).1

/-- An initialized and started runtime with one Service, not running. -/
def rStarted : RState := RState.mk 0 none true true false true 1 []

/-- A started runtime with one Service, currently running one step. -/
def rRunning : RState := RState.mk 0 (some 1) true true true true 1 []

/-- A Var aliasing a Var aliasing a terminal Var (chain of length two). -/
def aliasChain2 : LVar :=
  LVar.aliasOf 1 true 0 (LVar.aliasOf 2 true 0 (LVar.base 3 true 5))

/-! ### Helper lemmas -/

theorem wrap32_eq_self (v : Int) (h0 : -2 ^ 31 ≤ v) (h1 : v < 2 ^ 31) :
    wrap32 v = v := by
  have e31 : (2 : Int) ^ 31 = 2147483648 := by norm_num
  have e32 : (2 : Int) ^ 32 = 4294967296 := by norm_num
  unfold wrap32
  rw [e31, e32]
  rw [e31] at h0 h1
  have h2 : (v + 2147483648) % 4294967296 = v + 2147483648 :=
    Int.emod_eq_of_lt (by omega) (by omega)
  omega

theorem enum_int32_eq (n : Int) (h0 : -2 ^ 31 ≤ n) (h1 : n < 2 ^ 31) :
    enum_to_np n NpDType.int32 = Token.mk NpDType.int32 n := by
  simp [enum_to_np, NpDType.castScalar, wrap32_eq_self n h0 h1]

theorem hasBadAck_replicate (k : Nat) (e : Int) :
    hasBadAck e (List.replicate k e) = false := by
  induction k with
  | zero => rfl
  | succ m ih => simp [hasBadAck, List.replicate]

theorem hasBadAck_false_iff (e : Int) (l : List Int) :
    hasBadAck e l = false ↔ ∀ a ∈ l, a = e := by
  simp [hasBadAck, List.any_eq_false]

theorem hasBadAck_true_iff (e : Int) (l : List Int) :
    hasBadAck e l = true ↔ ∃ a ∈ l, a ≠ e := by
  simp [hasBadAck, List.any_eq_true]

theorem writeLoop_exact (c : Int → Int) (data : List Int) (chan : List Token)
    (h : chan.length = data.length) :
    writeLoop c data ((data.length : Int)) chan
      = Except.ok (chan.map fun t => c t.val) := by
  induction data generalizing chan with
  | nil =>
    cases chan with
    | nil => rfl
    | cons t rest => simp at h
  | cons dd ds ih =>
    cases chan with
    | nil => simp at h
    | cons t rest =>
      have hlen : rest.length = ds.length := by simpa using h
      have hne : (((ds.length + 1 : Nat) : Int)) ≠ 0 := by omega
      have hsub : (((ds.length + 1 : Nat) : Int)) - 1 = (ds.length : Int) := by omega
      simp only [writeLoop, List.length_cons, if_neg hne, hsub, ih rest hlen,
        Except.map, List.map_cons]

theorem natContains_iff (l : List Nat) (a : Nat) : l.contains a = true ↔ a ∈ l := by
  simp

theorem run_state_fields (s : RState) (rc : RunCond) (acks : List Int) :
    (Runtime._run s rc acks).state._is_initialized = s._is_initialized ∧
    (Runtime._run s rc acks).state._is_started = s._is_started ∧
    ((Runtime._run s rc acks).state._is_running = true →
      s._is_running = true ∨ s._is_started = true) := by
  by_cases hst : s._is_started = true
  · cases rc with
    | runSteps n b =>
      cases b with
      | false => simp [Runtime._run, hst]
      | true =>
        cases hb : hasBadAck MGMT_RESPONSE.DONE acks <;>
          simp [Runtime._run, hst, hb]
    | runContinuous => simp [Runtime._run, hst]
  · have hst' : s._is_started = false := by simpa using hst
    simp [Runtime._run, hst']

theorem pause_state_fields (s : RState) (acks : List Int) :
    (Runtime.pause s acks).state._is_initialized = s._is_initialized ∧
    (Runtime.pause s acks).state._is_started = s._is_started ∧
    ((Runtime.pause s acks).state._is_running = true → s._is_running = true) := by
  by_cases hr : s._is_running = true
  · cases hb : hasBadAck MGMT_RESPONSE.PAUSED acks <;> simp [Runtime.pause, hr, hb]
  · have hr' : s._is_running = false := by simpa using hr
    simp [Runtime.pause, hr']

theorem wait_state_fields (s : RState) (acks : List Int) :
    (Runtime.wait s acks).1._is_initialized = s._is_initialized ∧
    (Runtime.wait s acks).1._is_started = s._is_started ∧
    ((Runtime.wait s acks).1._is_running = true → s._is_running = true) := by
  by_cases hr : s._is_running = true
  · cases hb : hasBadAck MGMT_RESPONSE.DONE acks with
    | true => simp [Runtime.wait, hr, hb]
    | false =>
      cases hn : s.num_steps <;> simp [Runtime.wait, hr, hb, hn]
  · have hr' : s._is_running = false := by simpa using hr
    simp [Runtime.wait, hr']

theorem stop_state_cases (s : RState) (acks : List Int) :
    (Runtime.stop s acks).state = s ∨
    ((Runtime.stop s acks).state._is_running = false ∧
     (Runtime.stop s acks).state._is_started = false ∧
     (Runtime.stop s acks).state._is_initialized = s._is_initialized) := by
  by_cases hst : s._is_started = true
  · cases hb : hasBadAck MGMT_RESPONSE.TERMINATED acks <;>
      by_cases hmi : s._messaging_infrastructure = true <;>
        simp [Runtime.stop, hst, hb, hmi]
  · have hst' : s._is_started = false := by simpa using hst
    by_cases hmi : s._messaging_infrastructure = true <;>
      simp [Runtime.stop, hst', hmi]

theorem RInv_run (s : RState) (rc : RunCond) (acks : List Int) (h : RInv s) :
    RInv (Runtime._run s rc acks).state := by
  obtain ⟨hi, hs, hr⟩ := run_state_fields s rc acks
  obtain ⟨h1, h2⟩ := h
  constructor
  · intro hx
    rw [hs]
    rcases hr hx with hx1 | hx2
    · exact h1 hx1
    · exact hx2
  · intro hx
    rw [hi]
    exact h2 (by rw [← hs]; exact hx)

theorem RInv_stepOp (s : RState) (op : ROp) (h : RInv s) :
    RInv (RState.stepOp s op) := by
  obtain ⟨h1, h2⟩ := h
  cases op with
  | initOp k ok =>
    show RInv (Runtime.initRuntime s k ok).1
    cases ok with
    | false => exact ⟨h1, h2⟩
    | true => exact ⟨fun hx => h1 hx, fun _ => rfl⟩
  | startOp rc acks =>
    show RInv (Runtime.start s rc acks).state
    by_cases hini : s._is_initialized = true
    · have hsub : RInv { s with _is_started := true } :=
        ⟨fun _ => rfl, fun _ => hini⟩
      have hres := RInv_run { s with _is_started := true } rc acks hsub
      unfold Runtime.start
      rw [if_pos hini]
      exact hres
    · have hini' : s._is_initialized = false := by simpa using hini
      unfold Runtime.start
      rw [if_neg (by simp [hini'])]
      exact ⟨h1, h2⟩
  | runOp rc acks => exact RInv_run s rc acks ⟨h1, h2⟩
  | waitOp acks =>
    show RInv (Runtime.wait s acks).1
    obtain ⟨hi, hs, hr⟩ := wait_state_fields s acks
    refine ⟨fun hx => ?_, fun hx => ?_⟩
    · rw [hs]
      exact h1 (hr hx)
    · rw [hi]
      rw [hs] at hx
      exact h2 hx
  | pauseOp acks =>
    show RInv (Runtime.pause s acks).state
    obtain ⟨hi, hs, hr⟩ := pause_state_fields s acks
    refine ⟨fun hx => ?_, fun hx => ?_⟩
    · rw [hs]
      exact h1 (hr hx)
    · rw [hi]
      rw [hs] at hx
      exact h2 hx
  | stopOp acks =>
    show RInv (Runtime.stop s acks).state
    rcases stop_state_cases s acks with he | ⟨hr, hs, hi⟩
    · rw [he]
      exact ⟨h1, h2⟩
    · refine ⟨fun hx => ?_, fun hx => ?_⟩
      · rw [hr] at hx
        exact (Bool.false_ne_true hx).elim
      · rw [hs] at hx
        exact (Bool.false_ne_true hx).elim

theorem set_var_no_assert (s : RState) (vid : Nat) (value : List Int)
    (hst : s._is_started = true) (hr : s._is_running = false) :
    assertFailed (Runtime.set_var s vid value) = false := by
  unfold Runtime.set_var
  rw [hst, hr]
  simp only [Bool.not_true, Bool.false_eq_true, if_false]
  cases hl : List.lookup vid s.exec_vars with
  | none => simp [assertFailed]
  | some ev =>
    by_cases hsrv : ev.runtime_srv_id < s.num_services <;> simp [hsrv, assertFailed]

theorem get_var_no_assert (s : RState) (vid : Nat) (resp : List Token)
    (hst : s._is_started = true) (hr : s._is_running = false) :
    assertFailed (Runtime.get_var s vid resp) = false := by
  unfold Runtime.get_var
  rw [hst, hr]
  simp only [Bool.not_true, Bool.false_eq_true, if_false]
  cases hl : List.lookup vid s.exec_vars with
  | none => simp [assertFailed]
  | some ev =>
    by_cases hsrv : ev.runtime_srv_id < s.num_services
    · cases resp with
      | nil => simp [hsrv, assertFailed]
      | cons hdr rest =>
        by_cases hlen : rest.length < hdr.val.toNat <;>
          by_cases hn : hdr.val.toNat = ev.shape_numel <;>
            by_cases hlen2 : rest.length < ev.shape_numel <;>
              simp [hsrv, hlen, hn, hlen2, assertFailed]
    · simp [hsrv, assertFailed]

/-! ### Claims -/

/-- Claim C1, counterexample.  The claim states that calling `stop()` before
`start()` was ever called never raises.  On a freshly constructed Runtime
(never initialized) `stop()` hits the `finally` block with
`self._messaging_infrastructure` still `None` and raises an AttributeError. -/
theorem C1_counterexample :
    (Runtime.stop (Runtime.new []) []).err = some RtErr.attributeError ∧
    (Runtime.stop (Runtime.new []) []).err ≠ none := by
  decide

/-- Claim C1 (amended): for every Runtime whose messaging infrastructure has
been built by `initialize()`, and whose Services acknowledge STOP with
TERMINATED, calling `stop()` twice in a row — and calling `stop()` before
`start()` was ever called — never raises an error, and afterwards the Runtime
is stopped (not started, not running). -/
theorem C1_stop_idempotent (s : RState)
    (hmi : s._messaging_infrastructure = true)
    (hrs : s._is_running = true → s._is_started = true) :
    (stopWithCompliantAcks s).err = none ∧
    (stopWithCompliantAcks s).state._is_started = false ∧
    (stopWithCompliantAcks s).state._is_running = false ∧
    (stopWithCompliantAcks (stopWithCompliantAcks s).state).err = none ∧
    (stopWithCompliantAcks (stopWithCompliantAcks s).state).state._is_started = false ∧
    (stopWithCompliantAcks (stopWithCompliantAcks s).state).state._is_running = false := by
  have hbad : ∀ k : Nat,
      hasBadAck MGMT_RESPONSE.TERMINATED
        (List.replicate k MGMT_RESPONSE.TERMINATED) = false :=
    fun k => hasBadAck_replicate k _
  by_cases hst : s._is_started = true
  · simp [stopWithCompliantAcks, Runtime.stop, hst, hbad, hmi]
  · have hst' : s._is_started = false := by simpa using hst
    have hrun : s._is_running = false := by
      cases hr : s._is_running with
      | false => rfl
      | true => exact absurd (hrs hr) (by simp [hst'])
    simp [stopWithCompliantAcks, Runtime.stop, hst', hmi, hrun]

/-- Claim C1, witness for the amended theorem at an initialized Runtime. -/
theorem C1_stop_witness :
    rInit1._messaging_infrastructure = true ∧
    (stopWithCompliantAcks rInit1).err = none ∧
    (stopWithCompliantAcks (stopWithCompliantAcks rInit1).state).err = none :=
  ⟨by decide,
    (C1_stop_idempotent rInit1 (by decide) (by decide)).1,
    (C1_stop_idempotent rInit1 (by decide) (by decide)).2.2.2.1⟩

/-- Claim C2: for every accepted command token the handler sends exactly one
response on `process_to_service_ack` — DONE for the four run phases, PAUSED
for pause, TERMINATED for stop.  This evaluation shows the claim holds for
SPK/PRE_MGMT/LRN/POST_MGMT/STOP but fails for PAUSE (-2) and HOST (5): the
`PyLoihiProcessModel._pause` handler that serves both sends zero responses
(the base-class `_pause`, which the override drops, does send PAUSED). -/
theorem C2_pause_ack_eval :
    (loihiDispatch trivialCbs actorSt0 (-2) []).map DispRes.acks = some [] ∧
    (loihiDispatch trivialCbs actorSt0 5 []).map DispRes.acks = some [] ∧
    (loihiDispatch trivialCbs actorSt0 1 []).map DispRes.acks
      = some [MGMT_RESPONSE.DONE] ∧
    (loihiDispatch trivialCbs actorSt0 2 []).map DispRes.acks
      = some [MGMT_RESPONSE.DONE] ∧
    (loihiDispatch trivialCbs actorSt0 3 []).map DispRes.acks
      = some [MGMT_RESPONSE.DONE] ∧
    (loihiDispatch trivialCbs actorSt0 4 []).map DispRes.acks
      = some [MGMT_RESPONSE.DONE] ∧
    (loihiDispatch trivialCbs actorSt0 (-1) []).map DispRes.acks
      = some [MGMT_RESPONSE.TERMINATED] ∧
    (basePMDispatch actorSt0 (-2) []).map DispRes.acks
      = some [MGMT_RESPONSE.PAUSED] ∧
    some ([] : List Int) ≠ some [MGMT_RESPONSE.PAUSED] := by
  decide

/-- Claim C3: for every started Runtime and blocking StepRun of `n` steps
(with `n` representable on the int32 wire), the Runtime sends the token `n`
on every control channel, one per Service; if every acknowledgement equals
DONE then no error is raised, `current_ts` grows by exactly `n`, and the
Runtime ends not running but still started; if any acknowledgement differs
from DONE, a RuntimeError is raised. -/
theorem C3_blocking_steprun (s : RState) (n : Int) (acks : List Int)
    (hst : s._is_started = true) (hn0 : 0 ≤ n) (hn1 : n < 2 ^ 31)
    (_hlen : acks.length = s.num_services) :
    (Runtime._run s (RunCond.runSteps n true) acks).cmdSent
      = List.replicate s.num_services (Token.mk NpDType.int32 n) ∧
    ((∀ a ∈ acks, a = MGMT_RESPONSE.DONE) →
      (Runtime._run s (RunCond.runSteps n true) acks).err = none ∧
      (Runtime._run s (RunCond.runSteps n true) acks).state.current_ts
        = s.current_ts + n ∧
      (Runtime._run s (RunCond.runSteps n true) acks).state._is_running = false ∧
      (Runtime._run s (RunCond.runSteps n true) acks).state._is_started = true) ∧
    ((∃ a ∈ acks, a ≠ MGMT_RESPONSE.DONE) →
      (Runtime._run s (RunCond.runSteps n true) acks).err
        = some RtErr.runtimeError) := by
  have htok := enum_int32_eq n (by omega) hn1
  refine ⟨?_, ?_, ?_⟩
  · cases hb : hasBadAck MGMT_RESPONSE.DONE acks <;>
      simp [Runtime._run, hst, hb, htok]
  · intro hall
    have hb : hasBadAck MGMT_RESPONSE.DONE acks = false :=
      (hasBadAck_false_iff _ _).mpr hall
    simp [Runtime._run, hst, hb]
  · intro hex
    have hb : hasBadAck MGMT_RESPONSE.DONE acks = true :=
      (hasBadAck_true_iff _ _).mpr hex
    simp [Runtime._run, hst, hb]

/-- Claim C3, witness at a started one-Service Runtime running 2 steps. -/
theorem C3_blocking_steprun_witness :
    rStarted._is_started = true ∧ ([0] : List Int).length = rStarted.num_services ∧
    (Runtime._run rStarted (RunCond.runSteps 2 true) [0]).cmdSent
      = List.replicate rStarted.num_services (Token.mk NpDType.int32 2) :=
  ⟨by decide, by decide,
    (C3_blocking_steprun rStarted 2 [0] (by decide) (by decide) (by decide)
      (by decide)).1⟩

/-- Claim C4, counterexample.  For a Python-int scalar Var with element count
1 and payload `[2]` (one float64 item on the wire, as `Runtime.set_var`
sends), the set handler stores `buffer.item()` — a Python float — and the
following get handler matches neither the int nor the ndarray branch and
sends nothing, instead of the claimed `[1, 2]`. -/
theorem C4_roundtrip_counterexample :
    _handle_set_var (PyObj.pyInt 0)
        [enum_to_np 1 NpDType.int32, enum_to_np 2 NpDType.float64]
      = Except.ok (PyObj.pyFloat 2) ∧
    _handle_get_var (PyObj.pyFloat 2) = [] ∧
    _handle_get_var (PyObj.pyFloat 2)
      ≠ [enum_to_np 1 NpDType.int32, enum_to_np 2 NpDType.int32] := by
  decide

/-- Claim C4 (amended): for every ndarray variable and every numpy-integer
scalar variable (values representable on the int32 wire), running the set
handler on a payload whose item count equals the variable's element count,
followed by the get handler, yields back exactly the payload cast to the
variable's storage dtype, element for element in row-major order.  (For
Python-int scalar variables the set handler stores a Python float and the
subsequent get handler sends nothing — see the counterexample.) -/
theorem C4_roundtrip_amended (d : NpDType) (data xs : List Int) (v x : Int)
    (hlen : xs.length = data.length) (hsz : (data.length : Int) < 2 ^ 31)
    (hx0 : -2 ^ 31 ≤ d.castScalar x) (hx1 : d.castScalar x < 2 ^ 31) :
    (_handle_set_var (PyObj.npArr d data)
        (enum_to_np (data.length : Int) NpDType.int32 ::
          xs.map (fun w => enum_to_np w NpDType.float64))
      = Except.ok (PyObj.npArr d (xs.map d.castScalar)) ∧
     _handle_get_var (PyObj.npArr d (xs.map d.castScalar))
      = enum_to_np ((xs.map d.castScalar).length : Int) NpDType.int32 ::
          (xs.map d.castScalar).map (fun w => enum_to_np w NpDType.float64)) ∧
    (_handle_set_var (PyObj.npInt d v)
        [enum_to_np 1 NpDType.int32, enum_to_np x NpDType.float64]
      = Except.ok (PyObj.npInt d (d.castScalar x)) ∧
     _handle_get_var (PyObj.npInt d (d.castScalar x))
      = [Token.mk NpDType.int32 1, Token.mk NpDType.int32 (d.castScalar x)]) := by
  have hhdr : (enum_to_np (data.length : Int) NpDType.int32).val
      = (data.length : Int) := by
    have := enum_int32_eq (data.length : Int) (by omega) hsz
    rw [this]
  refine ⟨⟨?_, ?_⟩, ?_, ?_⟩
  · show Except.map (PyObj.npArr d)
        (writeLoop d.castScalar data
          (enum_to_np (data.length : Int) NpDType.int32).val
          (xs.map fun w => enum_to_np w NpDType.float64))
      = Except.ok (PyObj.npArr d (xs.map d.castScalar))
    rw [hhdr]
    have hlen2 : (xs.map fun w => enum_to_np w NpDType.float64).length
        = data.length := by simpa using hlen
    rw [show ((data.length : Int)) = ((data.length : Nat) : Int) from rfl]
    rw [writeLoop_exact d.castScalar data _ hlen2]
    simp [Except.map, enum_to_np, NpDType.castScalar, Function.comp]
  · simp [_handle_get_var, enum_to_np, NpDType.castScalar]
  · rfl
  · have h1 : enum_to_np 1 NpDType.int32 = Token.mk NpDType.int32 1 := by decide
    have h2 := enum_int32_eq (d.castScalar x) hx0 hx1
    simp [_handle_get_var, h1, h2]

/-- Claim C4, witness for the amended theorem: a 2-element int32 array. -/
theorem C4_roundtrip_witness :
    ([3, 7] : List Int).length = ([0, 0] : List Int).length ∧
    _handle_set_var (PyObj.npArr NpDType.int32 [0, 0])
        (enum_to_np (([0, 0] : List Int).length : Int) NpDType.int32 ::
          ([3, 7] : List Int).map (fun w => enum_to_np w NpDType.float64))
      = Except.ok
          (PyObj.npArr NpDType.int32
            (([3, 7] : List Int).map NpDType.int32.castScalar)) :=
  ⟨by decide,
    (C4_roundtrip_amended NpDType.int32 [0, 0] [3, 7] 0 5 (by decide) (by decide)
      (by decide) (by decide)).1.1⟩

/-- Claim C5: for every Var whose `aliased_var` chain ends at a terminal Var,
`get` returns exactly what the terminal Var's `get` returns and `set`
performs exactly the terminal Var's mutation; the runtime access always
targets the terminal Var's id, the terminal Var has no alias, and the
intermediate aliasing Vars are never read or written themselves. -/
theorem C5_alias_delegation (a : LVar) (x : List Int) (idx : Option (List Nat)) :
    a.get idx = a.terminalVar.get idx ∧
    a.set x idx = a.terminalVar.set x idx ∧
    a.terminalVar.isBase = true ∧
    (∀ j v i2, a.set x idx = SetOutcome.runtimeSet j v i2 → j = a.terminalVar.varId) ∧
    (∀ j i2, a.get idx = GetOutcome.fromRuntime j i2 → j = a.terminalVar.varId) := by
  induction a with
  | base i r v =>
    cases r with
    | false =>
      refine ⟨rfl, rfl, rfl, ?_, ?_⟩
      · intro j w i2 hj
        cases hj
      · intro j i2 hj
        cases hj
    | true =>
      refine ⟨rfl, rfl, rfl, ?_, ?_⟩
      · intro j w i2 hj
        cases hj
        rfl
      · intro j i2 hj
        cases hj
        rfl
  | aliasOf i r v t ih =>
    simpa [LVar.get, LVar.set, LVar.terminalVar] using ih

/-- Claim C5, witness on a chain of length two. -/
theorem C5_alias_witness :
    aliasChain2.get none = aliasChain2.terminalVar.get none ∧
    aliasChain2.set [4] none = aliasChain2.terminalVar.set [4] none :=
  ⟨(C5_alias_delegation aliasChain2 [4] none).1,
   (C5_alias_delegation aliasChain2 [4] none).2.1⟩

/-- Claim C6: for every running Runtime, `pause()` sends the PAUSE token on
every control channel, then receives one response per Service; it raises an
error if and only if some received response differs from PAUSED; when all
responses equal PAUSED it ends with the Runtime no longer running. -/
theorem C6_pause_protocol (s : RState) (acks : List Int)
    (hr : s._is_running = true) (_hlen : acks.length = s.num_services) :
    (Runtime.pause s acks).cmdSent
      = List.replicate s.num_services MGMT_COMMAND.PAUSE ∧
    ((Runtime.pause s acks).err ≠ none ↔ ∃ a ∈ acks, a ≠ MGMT_RESPONSE.PAUSED) ∧
    ((∀ a ∈ acks, a = MGMT_RESPONSE.PAUSED) →
      (Runtime.pause s acks).err = none ∧
      (Runtime.pause s acks).state._is_running = false) := by
  refine ⟨?_, ⟨?_, ?_⟩, ?_⟩
  · cases hb : hasBadAck MGMT_RESPONSE.PAUSED acks <;> simp [Runtime.pause, hr, hb]
  · intro hne
    cases hb : hasBadAck MGMT_RESPONSE.PAUSED acks with
    | true => exact (hasBadAck_true_iff _ _).mp hb
    | false => exact absurd (by simp [Runtime.pause, hr, hb]) hne
  · intro hex
    have hb : hasBadAck MGMT_RESPONSE.PAUSED acks = true :=
      (hasBadAck_true_iff _ _).mpr hex
    simp [Runtime.pause, hr, hb]
  · intro hall
    have hb : hasBadAck MGMT_RESPONSE.PAUSED acks = false :=
      (hasBadAck_false_iff _ _).mpr hall
    simp [Runtime.pause, hr, hb]

/-- Claim C6, witness at a running one-Service Runtime with a compliant
PAUSED response. -/
theorem C6_pause_witness :
    rRunning._is_running = true ∧
    (Runtime.pause rRunning [-2]).cmdSent
      = List.replicate rRunning.num_services MGMT_COMMAND.PAUSE :=
  ⟨by decide, (C6_pause_protocol rRunning [-2] (by decide) (by decide)).1⟩

/-- Claim C7: for every GET serviced by a Process Actor, the response payload
on the data channel is: for a scalar integer variable, the token 1 followed
by exactly one token carrying the integer value; for an array variable, a
token with the element count followed by exactly that many tokens in
row-major order, each a 64-bit float regardless of the storage dtype. -/
theorem C7_get_encoding (v : Int) (hv0 : -2 ^ 31 ≤ v) (hv1 : v < 2 ^ 31)
    (d : NpDType) (data : List Int) :
    _handle_get_var (PyObj.pyInt v)
      = [Token.mk NpDType.int32 1, Token.mk NpDType.int32 v] ∧
    _handle_get_var (PyObj.npInt d v)
      = [Token.mk NpDType.int32 1, Token.mk NpDType.int32 v] ∧
    _handle_get_var (PyObj.npArr d data)
      = enum_to_np (data.length : Int) NpDType.int32 ::
          data.map (fun w => Token.mk NpDType.float64 w) := by
  have h1 : enum_to_np 1 NpDType.int32 = Token.mk NpDType.int32 1 := by decide
  have hv := enum_int32_eq v hv0 hv1
  refine ⟨?_, ?_, ?_⟩
  · simp [_handle_get_var, h1, hv]
  · simp [_handle_get_var, h1, hv]
  · simp [_handle_get_var, enum_to_np, NpDType.castScalar]

/-- Claim C7, witness for a scalar integer Var and a 2-element array. -/
theorem C7_get_encoding_witness :
    -2 ^ 31 ≤ (7 : Int) ∧ (7 : Int) < 2 ^ 31 ∧
    _handle_get_var (PyObj.pyInt 7)
      = [Token.mk NpDType.int32 1, Token.mk NpDType.int32 7] :=
  ⟨by decide, by decide,
    (C7_get_encoding 7 (by decide) (by decide) NpDType.int32 [1, 2]).1⟩

/-- Claim C8: `get_var`/`set_var` fail on their precondition assertions
exactly when the Runtime is not started or is running; when started and not
running, neither precondition check raises. -/
theorem C8_var_access_preconditions (s : RState) (vid : Nat) (value : List Int)
    (resp : List Token) :
    (assertFailed (Runtime.set_var s vid value) = true ↔
      (s._is_started = false ∨ s._is_running = true)) ∧
    (assertFailed (Runtime.get_var s vid resp) = true ↔
      (s._is_started = false ∨ s._is_running = true)) := by
  constructor
  · constructor
    · intro haf
      by_cases hst : s._is_started = true
      · by_cases hrun : s._is_running = true
        · exact Or.inr hrun
        · rw [set_var_no_assert s vid value hst (by simpa using hrun)] at haf
          exact (Bool.false_ne_true haf).elim
      · exact Or.inl (by simpa using hst)
    · intro hor
      rcases hor with hst | hrun
      · simp [Runtime.set_var, assertFailed, hst]
      · by_cases hst : s._is_started = true
        · simp [Runtime.set_var, assertFailed, hst, hrun]
        · have hst' : s._is_started = false := by simpa using hst
          simp [Runtime.set_var, assertFailed, hst']
  · constructor
    · intro haf
      by_cases hst : s._is_started = true
      · by_cases hrun : s._is_running = true
        · exact Or.inr hrun
        · rw [get_var_no_assert s vid resp hst (by simpa using hrun)] at haf
          exact (Bool.false_ne_true haf).elim
      · exact Or.inl (by simpa using hst)
    · intro hor
      rcases hor with hst | hrun
      · simp [Runtime.get_var, assertFailed, hst]
      · by_cases hst : s._is_started = true
        · simp [Runtime.get_var, assertFailed, hst, hrun]
        · have hst' : s._is_started = false := by simpa using hst
          simp [Runtime.get_var, assertFailed, hst']

/-- Claim C8, witness at a running Runtime (the set precondition fires). -/
theorem C8_var_access_witness :
    assertFailed (Runtime.set_var rRunning 0 [1]) = true ↔
      (rRunning._is_started = false ∨ rRunning._is_running = true) :=
  (C8_var_access_preconditions rRunning 0 [1] []).1

/-- Claim C9, counterexample.  Ports 0 (OutPort), 1 and 2 (InPorts) start
fresh.  The public call `connect` of port 0 with list `[1, 1, 2]` raises
DuplicateConnectionError halfway through its input loop and leaves
`0.out=[1,1,2]`, `1.in=[0]`, `2.in=[]` — so 0 and 2 are "already connected"
(2 is in 0's out_connections).  The further call `connect_from` of port 2
with `[0]`, which would add the edge 0 → 2 again, does raise
DuplicateConnectionError, but it is not side-effect-free: it first appends 0
to 2's in_connections, contradicting the claim that both ports' lists are
left unchanged by the failed call. -/
theorem C9_duplicate_counterexample :
    (_connect_forward emptyGraph 0 [1, 1, 2]).2 = true ∧
    2 ∈ (brokenGraph 0).out_connections ∧
    (brokenGraph 2).in_connections = [] ∧
    (_connect_backward brokenGraph 2 [0]).2 = true ∧
    ((_connect_backward brokenGraph 2 [0]).1 2).in_connections = [0] ∧
    ((_connect_backward brokenGraph 2 [0]).1 2).in_connections
      ≠ (brokenGraph 2).in_connections := by
  decide

/-- Claim C9 (amended): if ports p and q are already connected on both sides
(q in p's out_connections and p in q's in_connections, as in every state
produced by successful connect calls), then any further forward connect from
p whose argument list contains q, and any further backward connect into q
whose argument list contains p, raises DuplicateConnectionError and leaves
the whole port graph unchanged.  (When a previously failed call has left the
two sides asymmetric, a backward connect can mutate q's in_connections before
raising — see the counterexample.) -/
theorem C9_duplicate_amended (g : PortGraph) (p q : Nat) (qs ps : List Nat)
    (hq : q ∈ (g p).out_connections) (hsym : p ∈ (g q).in_connections)
    (hqs : q ∈ qs) (hps : p ∈ ps) :
    _connect_forward g p qs = (g, true) ∧ _connect_backward g q ps = (g, true) := by
  have hout : (qs.any fun x => (g p).out_connections.contains x) = true :=
    List.any_eq_true.mpr ⟨q, hqs, (natContains_iff _ _).mpr hq⟩
  have hin : (ps.any fun x => (g q).in_connections.contains x) = true :=
    List.any_eq_true.mpr ⟨p, hps, (natContains_iff _ _).mpr hsym⟩
  constructor
  · unfold _connect_forward _add_outputs
    rw [if_pos hout]
  · unfold _connect_backward _add_inputs
    rw [if_pos hin]

/-- Claim C9, witness on a symmetric two-port graph with the edge 0 → 1. -/
theorem C9_duplicate_witness :
    1 ∈ (symGraph 0).out_connections ∧ 0 ∈ (symGraph 1).in_connections ∧
    _connect_forward symGraph 0 [1] = (symGraph, true) ∧
    _connect_backward symGraph 1 [0] = (symGraph, true) :=
  ⟨by decide, by decide,
    (C9_duplicate_amended symGraph 0 1 [1] [0] (by decide) (by decide)
      (by decide) (by decide)).1,
    (C9_duplicate_amended symGraph 0 1 [1] [0] (by decide) (by decide)
      (by decide) (by decide)).2⟩

/-- Claim C10: in every state reachable from construction by any sequence of
initialize/start/run/wait/pause/stop calls, `_is_running` implies
`_is_started` and `_is_started` implies `_is_initialized`. -/
theorem C10_flag_invariant (ev : List (Nat × ExecVar)) (ops : List ROp) :
    RInv (ops.foldl RState.stepOp (Runtime.new ev)) := by
  have h0 : RInv (Runtime.new ev) := by
    constructor
    · intro hx
      cases hx
    · intro hx
      cases hx
  have hall : ∀ (l : List ROp) (s : RState), RInv s → RInv (l.foldl RState.stepOp s) := by
    intro l
    induction l with
    | nil => intro s hs; exact hs
    | cons op t ih => intro s hs; exact ih _ (RInv_stepOp s op hs)
  exact hall ops _ h0

/-- Claim C10, witness on a concrete call sequence. -/
theorem C10_flag_invariant_witness :
    RInv (([ROp.initOp 1 true, ROp.startOp (RunCond.runSteps 2 true) [0],
      ROp.runOp RunCond.runContinuous [], ROp.pauseOp [-2],
      ROp.stopOp [-1]]).foldl RState.stepOp (Runtime.new [])) :=
  C10_flag_invariant []
    [ROp.initOp 1 true, ROp.startOp (RunCond.runSteps 2 true) [0],
      ROp.runOp RunCond.runContinuous [], ROp.pauseOp [-2], ROp.stopOp [-1]]

end Lava
